import Mathlib

/-!
# Verification of the Haunti-AI off-chain scheduling and fault-management core

Shallow embedding of the GPU bin-packing scheduler
(`compute-network/scheduler/src/bin_packing.rs`), the node-side task manager
(`compute-network/node/src/task_manager.rs`) and the fault detector
(`compute-network/scheduler/src/fault_detector.rs`), together with theorems
checking the natural-language specification against this code.

Modelling conventions:
* `u64`/`u32`/`u8` quantities are `Nat`; where an addition can exceed the
  64-bit range and the surrounding code compares the (possibly wrapped) sum,
  the wrap is written explicitly as `% 2 ^ 64`.
* `f32` quantities (utilization fractions, fitness scores, fault penalty)
  are modelled as exact rationals `ℚ`.  On every concrete input appearing in
  a theorem below the compared quantities are far enough apart that `f32`
  rounding cannot change any comparison outcome.
* Rust `HashMap`s are association lists `List (key × value)`; iteration over
  a `HashMap` whose per-entry effects are independent is modelled as a `map`
  over the list.
* The Rust `BinaryHeap` of pending tasks is a `List`; popping is selecting a
  maximal element under the source's `Ord` implementation.
-/

set_option linter.unusedVariables false

deriving instance DecidableEq for Except

set_option allowUnsafeReducibility true in
attribute [semireducible] Rat.add Rat.mul Rat.inv Rat.sub Rat.div

namespace BinPack

/-- Wrapping 64-bit addition (Rust `u64` addition in release mode). -/
def u64Add (a b : Nat) : Nat := (a + b) % 2 ^ 64

/-- Structure `GpuResource` from `bin_packing.rs` (the unused `fp32_perf` field is
dropped; `current_utilization : f32` is modelled as `ℚ`). -/
structure GpuResource where
  id : String
  total_memory : Nat
  used_memory : Nat
  cuda_cores : Nat
  memory_bandwidth : Nat
  fp16_support : Bool
  current_utilization : ℚ
  deriving DecidableEq

/-- Structure `ComputeTask` from `bin_packing.rs`. -/
structure ComputeTask where
  task_id : String
  required_memory : Nat
  min_cuda_cores : Nat
  bandwidth_threshold : Nat
  fp16_required : Bool
  priority : Nat
  deriving DecidableEq

/-- Error type `BinPackError` from `bin_packing.rs`. -/
inductive BinPackError where
  | InsufficientResource (task_id : String) (msg : String)
  | ResourceConflict (msg : String)
  | SchedulerOverload (msg : String)
  deriving DecidableEq

/-- Predicate `meets_task_requirements` from `bin_packing.rs`.  `memory_available` is a
`u64` subtraction; under the invariant `used_memory ≤ total_memory` the `Nat`
truncated subtraction agrees with it. -/
def meets_task_requirements (gpu : GpuResource) (task : ComputeTask) : Bool :=
  let memory_available := gpu.total_memory - gpu.used_memory
  let cores_available : ℚ := (gpu.cuda_cores : ℚ) * (1 - gpu.current_utilization)
  decide (task.required_memory ≤ memory_available) &&
  decide ((task.min_cuda_cores : ℚ) ≤ cores_available) &&
  decide (task.bandwidth_threshold ≤ gpu.memory_bandwidth) &&
  (!task.fp16_required || gpu.fp16_support)

/-- Function `calculate_fitness_score` from `bin_packing.rs`, over exact rationals.
Note the source divides: the returned score is the *reciprocal* of the inner
weighted sum, and the inner `core_utilization` and `bandwidth_utilization`
terms carry extra factors `0.7` and `0.3`. -/
def calculate_fitness_score (gpu : GpuResource) (task : ComputeTask) : ℚ :=
  let mem_frac : ℚ := ((gpu.used_memory + task.required_memory : Nat) : ℚ) / (gpu.total_memory : ℚ)
  let core_utilization : ℚ := ((task.min_cuda_cores : ℚ) / (gpu.cuda_cores : ℚ)) * (7 / 10)
  let bandwidth_utilization : ℚ := ((task.bandwidth_threshold : ℚ) / (gpu.memory_bandwidth : ℚ)) * (3 / 10)
  1 / ((1 / 2) * mem_frac + (3 / 10) * core_utilization + (1 / 5) * bandwidth_utilization)

/-- Modelled from the spec: the fitness formula the specification states,
`0.5 * post_alloc_memory_ratio + 0.3 * (min_cores/cores) + 0.2 * (bw_threshold/bandwidth)`,
with no reciprocal and no extra inner weights.  Used to compare the spec's
scoring against `calculate_fitness_score`. -/
def spec_fitness_score (gpu : GpuResource) (task : ComputeTask) : ℚ :=
  let mem_frac : ℚ := ((gpu.used_memory + task.required_memory : Nat) : ℚ) / (gpu.total_memory : ℚ)
  (1 / 2) * mem_frac + (3 / 10) * ((task.min_cuda_cores : ℚ) / (gpu.cuda_cores : ℚ))
    + (1 / 5) * ((task.bandwidth_threshold : ℚ) / (gpu.memory_bandwidth : ℚ))

/-- Function `allocate_resources` from `bin_packing.rs`.  The Rust memory check
`gpu.used_memory + task.required_memory > gpu.total_memory` compares the
`u64` sum, written here with the explicit wrap; the local `new_util`
binding is inlined. -/
def allocate_resources (gpu : GpuResource) (task : ComputeTask) :
    Except BinPackError GpuResource :=
  if gpu.total_memory < u64Add gpu.used_memory task.required_memory then
    .error (.ResourceConflict ("Memory exceeded on GPU " ++ gpu.id))
  else if (1 : ℚ) < gpu.current_utilization + (task.min_cuda_cores : ℚ) / (gpu.cuda_cores : ℚ) then
    .error (.SchedulerOverload ("GPU " ++ gpu.id ++ " utilization over 100%"))
  else
    .ok { gpu with
            used_memory := u64Add gpu.used_memory task.required_memory,
            current_utilization :=
              gpu.current_utilization + (task.min_cuda_cores : ℚ) / (gpu.cuda_cores : ℚ) }

/-- The choice made by `BestFitWithScoring::schedule`'s binary heap: the
source pushes `(Reverse(score), gpu_id)` for every feasible GPU and pops the
heap maximum, i.e. the feasible GPU with the least `calculate_fitness_score`
(ties broken towards the greater id, per lexicographic tuple order). -/
def bestFitSelect (task : ComputeTask) (pool : List GpuResource) : Option GpuResource :=
  (pool.filter (fun g => meets_task_requirements g task)).foldl
    (fun best g =>
      match best with
      | none => some g
      | some b =>
        if calculate_fitness_score g task < calculate_fitness_score b task then some g
        else if calculate_fitness_score g task = calculate_fitness_score b task ∧ b.id < g.id then some g
        else some b)
    none

/-- Strategy `BestFitWithScoring::schedule` from `bin_packing.rs`.  The pool is
returned alongside the result, mirroring the in-place mutation of
`gpu_pool`. -/
def BestFitWithScoring.schedule (task : ComputeTask) (pool : List GpuResource) :
    Except BinPackError String × List GpuResource :=
  match bestFitSelect task pool with
  | none => (.error (.InsufficientResource task.task_id "No suitable GPU found"), pool)
  | some g =>
    match allocate_resources g task with
    | .ok g' => (.ok g.id, pool.map (fun x => if x.id = g.id then g' else x))
    | .error e => (.error e, pool)

/-- Strategy `MultiDimFirstFit::schedule` from `bin_packing.rs`: walk the pool, place
the task on the first feasible GPU (propagating any `allocate_resources`
error), otherwise report `InsufficientResource`. -/
def MultiDimFirstFit.schedule (task : ComputeTask) :
    List GpuResource → Except BinPackError String × List GpuResource
  | [] => (.error (.InsufficientResource task.task_id "No suitable GPU found"), [])
  | g :: rest =>
    if meets_task_requirements g task then
      match allocate_resources g task with
      | .ok g' => (.ok g.id, g' :: rest)
      | .error e => (.error e, g :: rest)
    else
      let r := MultiDimFirstFit.schedule task rest
      (r.1, g :: r.2)

/-- The GPU built by `create_test_gpu` in the `bin_packing.rs` tests:
32 GiB total memory, 10240 CUDA cores, 936 GB/s bandwidth, fp16 support,
with a chosen amount of memory already used. -/
def testGpu (id : String) (used : Nat) : GpuResource :=
  { id := id
    total_memory := 32768
    used_memory := used
    cuda_cores := 10240
    memory_bandwidth := 936
    fp16_support := true
    current_utilization := 0 }

end BinPack

namespace TaskMgr

/-- Enum `TaskPriority` from `task_manager.rs` (`Low = 1 < Medium < High < Critical`,
ordered by the derived `Ord`, i.e. by discriminant). -/
inductive TaskPriority where
  | Low
  | Medium
  | High
  | Critical
  deriving DecidableEq

/-- The discriminant values assigned in the source. -/
def TaskPriority.disc : TaskPriority → Nat
  | .Low => 1
  | .Medium => 2
  | .High => 3
  | .Critical => 4

/-- Structure `ResourceRequirements` from `task_manager.rs`. -/
structure ResourceRequirements where
  gpu_type : Option String
  gpu_count : Nat
  memory_gb : Nat
  storage_gb : Nat
  timeout_secs : Nat
  deriving DecidableEq

/-- Enum `TaskState` from `task_manager.rs`. -/
inductive TaskState where
  | Pending
  | Scheduled
  | Running
  | Completed
  | Failed (msg : String)
  | TimedOut
  deriving DecidableEq

/-- Enum `TaskType` from `task_manager.rs`. -/
inductive TaskType where
  | Training (epochs : Nat) (batch_size : Nat)
  | Inference (input_cid : String)
  | FederatedLearning (participant_count : Nat)
  deriving DecidableEq

/-- Structure `ComputeTask` from `task_manager.rs` (the Solana `Pubkey` owner is an
opaque `Nat`). -/
structure ComputeTask where
  task_id : String
  owner : Nat
  priority : TaskPriority
  requirements : ResourceRequirements
  state : TaskState
  created_at : Nat
  updated_at : Nat
  task_type : TaskType
  model_cid : String
  data_cid : String
  deriving DecidableEq

/-- Structure `GpuResource` from `task_manager.rs` (the node-side device record). -/
structure GpuResource where
  device_id : String
  memory_allocated : Nat
  total_memory : Nat
  supported_ops : List String
  deriving DecidableEq

/-- Structure `ResourcePool` from `task_manager.rs`. -/
structure ResourcePool where
  gpu_devices : List GpuResource
  available_memory_gb : Nat
  total_memory_gb : Nat
  deriving DecidableEq

/-- The `Ord for ComputeTask` implementation from `task_manager.rs`:
priority first, then the creation timestamp comparison *reversed*
(earlier `created_at` compares greater among equal priorities). -/
def taskCmp (a b : ComputeTask) : Ordering :=
  (compare a.priority.disc b.priority.disc).then
    ((compare a.created_at b.created_at).swap)

/-- Popping the pending `BinaryHeap`: returns a maximal task under `taskCmp`
together with the remaining tasks (the leftmost maximum is chosen; every
concrete instance below has pairwise `taskCmp`-distinct tasks, so the choice
is the heap's). -/
def popMax : List ComputeTask → Option (ComputeTask × List ComputeTask)
  | [] => none
  | t :: ts =>
    match popMax ts with
    | none => some (t, [])
    | some (m, rest) =>
      if taskCmp t m = Ordering.lt then some (m, t :: rest) else some (t, ts)

/-- Repeatedly popping the queue (with enough fuel this drains it):
the order in which `schedule_tasks` dequeues pending tasks. -/
def drain : Nat → List ComputeTask → List ComputeTask
  | 0, _ => []
  | fuel + 1, q =>
    match popMax q with
    | none => []
    | some (t, rest) => t :: drain fuel rest

/-- Predicate `TaskManager::can_allocate` from `task_manager.rs`. -/
def can_allocate (req : ResourceRequirements) (pool : ResourcePool) : Bool :=
  (if 0 < req.gpu_count then
    decide (req.gpu_count ≤
      (pool.gpu_devices.filter
        (fun gpu => gpu.memory_allocated + req.memory_gb * 1024 * 1024 * 1024 ≤ gpu.total_memory)).length)
   else true) &&
  decide (req.memory_gb ≤ pool.available_memory_gb)

/-- The GPU-allocation loop of `TaskManager::start_task`: walk the devices,
adding `required_memory` to each device that can hold it, until `count`
devices have been allocated; returns the updated devices and the number
allocated. -/
def alloc_gpus (required_memory count : Nat) :
    List GpuResource → Nat → List GpuResource × Nat
  | [], allocated => ([], allocated)
  | g :: gs, allocated =>
    if count ≤ allocated then (g :: gs, allocated)
    else if g.memory_allocated + required_memory ≤ g.total_memory then
      let r := alloc_gpus required_memory count gs (allocated + 1)
      ({ g with memory_allocated := g.memory_allocated + required_memory } :: r.1, r.2)
    else
      let r := alloc_gpus required_memory count gs allocated
      (g :: r.1, r.2)

/-- Error type `TaskManagerError` from `task_manager.rs` (the RPC / serialization
variants carry opaque messages). -/
inductive TaskManagerError where
  | InsufficientResources
  | TaskNotFound
  | InvalidStateTransition
  | RpcError (msg : String)
  | SerializationError (msg : String)
  deriving DecidableEq

/-- Function `TaskManager::start_task` from `task_manager.rs`.  Returns the updated
pool together with the task value built at the end of the function — a
*clone* of the scheduled task with `state := Running` and a fresh
`updated_at`, which the caller (`schedule_tasks`) drops.  On the
insufficient-GPU error path the partial device allocations remain in the
pool, as in the source. -/
def start_task (now : Nat) (task : ComputeTask) (pool : ResourcePool) :
    Except TaskManagerError ComputeTask × ResourcePool :=
  if 0 < task.requirements.gpu_count then
    if (alloc_gpus (task.requirements.memory_gb * 1024 * 1024 * 1024)
          task.requirements.gpu_count pool.gpu_devices 0).2 < task.requirements.gpu_count then
      (.error .InsufficientResources,
       { pool with
           gpu_devices := (alloc_gpus (task.requirements.memory_gb * 1024 * 1024 * 1024)
             task.requirements.gpu_count pool.gpu_devices 0).1 })
    else
      (.ok { task with state := .Running, updated_at := now },
       { pool with
           gpu_devices := (alloc_gpus (task.requirements.memory_gb * 1024 * 1024 * 1024)
             task.requirements.gpu_count pool.gpu_devices 0).1,
           available_memory_gb := pool.available_memory_gb - task.requirements.memory_gb })
  else
    (.ok { task with state := .Running, updated_at := now },
     { pool with available_memory_gb := pool.available_memory_gb - task.requirements.memory_gb })

/-- Operation `HashMap::insert` on the running-task map, as an association-list update. -/
def insertAssoc (k : String) (v : ComputeTask) :
    List (String × ComputeTask) → List (String × ComputeTask)
  | [] => [(k, v)]
  | e :: rest => if e.1 = k then (k, v) :: rest else e :: insertAssoc k v rest

/-- One scheduling cycle of `TaskManager::schedule_tasks` (the body of the
`while let Some(task) = queue.pop()` loop), with explicit fuel for
termination; `fuel = queue.length` always suffices because each iteration
consumes one queue element.  Pops the maximal pending task; if
`can_allocate` holds, starts it (on a `start_task` error the task is
dropped and scanning continues — `continue` in the source) and records the
*popped* task (not `start_task`'s clone) in the running map; otherwise
pushes the task back and stops the cycle. -/
def schedule_cycle (now : Nat) :
    Nat → List ComputeTask → ResourcePool → List (String × ComputeTask) →
    List ComputeTask × ResourcePool × List (String × ComputeTask)
  | 0, queue, pool, running => (queue, pool, running)
  | fuel + 1, queue, pool, running =>
    match popMax queue with
    | none => (queue, pool, running)
    | some (task, rest) =>
      if can_allocate task.requirements pool then
        match start_task now task pool with
        | (.error _, pool') => schedule_cycle now fuel rest pool' running
        | (.ok _clone, pool') =>
          schedule_cycle now fuel rest pool' (insertAssoc task.task_id task running)
      else
        (task :: rest, pool, running)

/-- One scheduling cycle with the canonical fuel. -/
def schedule_tasks_cycle (now : Nat) (queue : List ComputeTask)
    (pool : ResourcePool) (running : List (String × ComputeTask)) :
    List ComputeTask × ResourcePool × List (String × ComputeTask) :=
  schedule_cycle now queue.length queue pool running

/-- The GPU-release loop of `TaskManager::release_resources`: walk the
devices, subtracting `required_memory` from each device currently holding at
least that much, until `count` devices have been released. -/
def release_gpus (required_memory count : Nat) :
    List GpuResource → Nat → List GpuResource
  | [], _ => []
  | g :: gs, released =>
    if count ≤ released then g :: gs
    else if required_memory ≤ g.memory_allocated then
      { g with memory_allocated := g.memory_allocated - required_memory }
        :: release_gpus required_memory count gs (released + 1)
    else g :: release_gpus required_memory count gs released

/-- Function `TaskManager::release_resources` from `task_manager.rs`: first the GPU
release loop (when `gpu_count > 0`), then the unconditional general-memory
release `available_memory_gb += memory_gb` (the two record updates touch
disjoint fields and are written as one update per branch). -/
def release_resources (req : ResourceRequirements) (pool : ResourcePool) : ResourcePool :=
  if 0 < req.gpu_count then
    { pool with
        gpu_devices :=
          release_gpus (req.memory_gb * 1024 * 1024 * 1024) req.gpu_count pool.gpu_devices 0,
        available_memory_gb := pool.available_memory_gb + req.memory_gb }
  else
    { pool with available_memory_gb := pool.available_memory_gb + req.memory_gb }

/-- Operation `HashMap::get` on the running-task map. -/
def lookupAssoc (k : String) : List (String × ComputeTask) → Option ComputeTask
  | [] => none
  | e :: rest => if e.1 = k then some e.2 else lookupAssoc k rest

/-- Operation `HashMap::remove` on the running-task map (removes the entry with the
given key; with `Nodup` keys this is all of them). -/
def removeAssoc (k : String) :
    List (String × ComputeTask) → List (String × ComputeTask)
  | [] => []
  | e :: rest => if e.1 = k then rest else e :: removeAssoc k rest

/-- The timeout test of `TaskManager::monitor_timeouts`:
`now - task.updated_at > task.requirements.timeout_secs` (a `u64`
subtraction; truncated `Nat` subtraction agrees whenever
`updated_at ≤ now`). -/
def timedOut (now : Nat) (t : ComputeTask) : Bool :=
  decide (t.requirements.timeout_secs < now - t.updated_at)

/-- One removal step of `TaskManager::monitor_timeouts`: `HashMap::remove`
returns the entry with the given id (if any), whose requirements are then
released. -/
def monitor_step (st : List (String × ComputeTask) × ResourcePool) (tid : String) :
    List (String × ComputeTask) × ResourcePool :=
  match lookupAssoc tid st.1 with
  | some task => (removeAssoc tid st.1, release_resources task.requirements st.2)
  | none => st

/-- One pass of `TaskManager::monitor_timeouts`: collect the ids of running
tasks whose elapsed time exceeds their timeout, then remove each from the
running map and release its resources. -/
def monitor_cycle (now : Nat) (running : List (String × ComputeTask))
    (pool : ResourcePool) : List (String × ComputeTask) × ResourcePool :=
  ((running.filter (fun e => timedOut now e.2)).map Prod.fst).foldl
    monitor_step (running, pool)

end TaskMgr

namespace FaultDet

/-- Enum `FaultType` from `fault_detector.rs`. -/
inductive FaultType where
  | ComputeTimeout (task : Nat)
  | MemoryOverflow
  | ZKProofMismatch
  | DataAvailabilityError
  | ByzantineBehavior
  deriving DecidableEq

/-- Structure `ResourceMetrics` from `fault_detector.rs` (`f32` fields as `ℚ`). -/
structure ResourceMetrics where
  gpu_util : ℚ
  mem_util : ℚ
  network_util : ℚ
  disk_io : ℚ
  deriving DecidableEq

/-- Structure `NodeHealth` from `fault_detector.rs` (`Instant` as a `Nat` timestamp;
`reputation_score : u8` and `staked_tokens : u64` as `Nat`).  Note the
record has no quarantine field. -/
structure NodeHealth where
  last_heartbeat : Nat
  task_success_rate : ℚ
  resource_usage : ResourceMetrics
  reputation_score : Nat
  staked_tokens : Nat
  deriving DecidableEq

/-- The threshold computed by `FaultDetector::new`:
`(consensus_ratio * 10.0) as u8` — an `f32` product cast to `u8`, which
truncates toward zero and saturates into `[0, 255]`.  Modelled over exact
rationals; for the ratio `0.6` used throughout, the `f32` computation also
yields exactly `6`. -/
def consensus_threshold_of (r : ℚ) : Nat :=
  min 255 (Int.toNat ⌊r * 10⌋)

/-- The per-node count built by `verify_consensus` into `fault_counts`
(a `u8` counter, incremented with wrap-around in release mode). -/
def countFaults (id : String) (faults : List (FaultType × String)) : Nat :=
  ((faults.filter (fun f => f.2 = id)).length) % 256

/-- The body of `FaultDetector::apply_penalties` on one health record:
slash 10 % of the stake (`(staked_tokens as f32 * 0.1) as u64`, modelled as
the exact floor `⌊stake / 10⌋`) with saturating subtraction, decay the
reputation by 10 with saturating subtraction.  The second component records
whether `quarantine_node` is invoked (`reputation_score < 20` after the
decay); `quarantine_node` itself is an empty placeholder in the source and
changes no state. -/
def apply_penalties (h : NodeHealth) : NodeHealth × Bool :=
  let penalty := Int.toNat ⌊(h.staked_tokens : ℚ) * (1 / 10)⌋
  let h' := { h with
                staked_tokens := h.staked_tokens - penalty,
                reputation_score := h.reputation_score - 10 }
  (h', decide (h'.reputation_score < 20))

/-- Whether `verify_consensus` penalizes the node `id`: the node must occur
in the pending fault list (so that `fault_counts` has an entry for it) and
its count must reach the consensus threshold. -/
def penalized (threshold : Nat) (faults : List (FaultType × String)) (id : String) : Bool :=
  faults.any (fun f => f.2 = id) && decide (threshold ≤ countFaults id faults)

/-- Function `FaultDetector::verify_consensus` from `fault_detector.rs`: count the
pending faults per node, apply penalties to every registered node whose
count reaches the threshold (the `HashMap` iteration applies independent
per-id updates, modelled as a `map` over the registry), then clear the
pending fault list.  Returns the cleared fault list, the updated registry,
and the ids for which `quarantine_node` was invoked. -/
def verify_consensus (threshold : Nat) (faults : List (FaultType × String))
    (registry : List (String × NodeHealth)) :
    List (FaultType × String) × List (String × NodeHealth) × List String :=
  let registry' := registry.map (fun e =>
    if penalized threshold faults e.1 then (e.1, (apply_penalties e.2).1) else e)
  let quarantined := (registry.filter
    (fun e => penalized threshold faults e.1 && (apply_penalties e.2).2)).map Prod.fst
  ([], registry', quarantined)

end FaultDet

/-!  Concrete instances used by the theorems below. -/

namespace BinPack

/-- The task of `test_best_fit_allocation` in `bin_packing.rs`:
8 GiB memory, 2048 cores, 500 GB/s, fp16 required. -/
def task1 : ComputeTask :=
  { task_id := "task1", required_memory := 8192, min_cuda_cores := 2048,
    bandwidth_threshold := 500, fp16_required := true, priority := 1 }

/-- The task of `test_insufficient_memory` in `bin_packing.rs`: 40 GiB of
memory against a 32 GiB device. -/
def bigTask : ComputeTask :=
  { task_id := "task1", required_memory := 40960, min_cuda_cores := 1024,
    bandwidth_threshold := 500, fp16_required := false, priority := 1 }

end BinPack

namespace TaskMgr

/-- A pending task with the given identity, priority, creation time and
requirements (remaining fields as in the repository's `test_task_lifecycle`). -/
def mkTask (id : String) (p : TaskPriority) (created : Nat)
    (req : ResourceRequirements) : ComputeTask :=
  { task_id := id, owner := 0, priority := p, requirements := req,
    state := .Pending, created_at := created, updated_at := created,
    task_type := .Inference "Qm", model_cid := "Qm", data_cid := "Qm" }

/-- Requirements that need no GPU and no memory (used by the ordering
scenario, where only dequeue order matters). -/
def lightReq : ResourceRequirements :=
  { gpu_type := none, gpu_count := 0, memory_gb := 0, storage_gb := 0, timeout_secs := 3600 }

/-- Scenario task A: priority Low, created at 0. -/
def taskA : ComputeTask := mkTask "A" .Low 0 lightReq

/-- Scenario task B: priority High, created at 1. -/
def taskB : ComputeTask := mkTask "B" .High 1 lightReq

/-- Scenario task C: priority High, created at 0. -/
def taskC : ComputeTask := mkTask "C" .High 0 lightReq

/-- A device with 12 GiB of 16 GiB allocated: it cannot take an 8 GiB task,
but it *can* give 8 GiB back. -/
def gpuSmall : GpuResource :=
  { device_id := "gpu-small", memory_allocated := 12884901888,
    total_memory := 17179869184, supported_ops := [] }

/-- An empty 32 GiB device. -/
def gpuBig : GpuResource :=
  { device_id := "gpu-big", memory_allocated := 0,
    total_memory := 34359738368, supported_ops := [] }

/-- Requirements asking for one GPU with 8 GiB and a 10 s timeout. -/
def reqOneGpu : ResourceRequirements :=
  { gpu_type := none, gpu_count := 1, memory_gb := 8, storage_gb := 0, timeout_secs := 10 }

/-- The timeout-scenario task. -/
def taskT : ComputeTask := mkTask "T" .High 0 reqOneGpu

/-- The timeout-scenario pool before any allocation. -/
def poolT : ResourcePool :=
  { gpu_devices := [gpuSmall, gpuBig], available_memory_gb := 100, total_memory_gb := 100 }

/-- A pool with no devices and 10 GB of free memory. -/
def poolFree10 : ResourcePool :=
  { gpu_devices := [], available_memory_gb := 10, total_memory_gb := 10 }

/-- Requirements for 4 GB of memory and no GPU. -/
def reqMem4 : ResourceRequirements :=
  { gpu_type := none, gpu_count := 0, memory_gb := 4, storage_gb := 0, timeout_secs := 3600 }

end TaskMgr

namespace FaultDet

/-- A health record with the given reputation and stake (heartbeat and
metrics as in the repository's `test_consensus_penalty`). -/
def mkHealth (rep stake : Nat) : NodeHealth :=
  { last_heartbeat := 0, task_success_rate := 1 / 2,
    resource_usage := { gpu_util := 4 / 5, mem_util := 9 / 10, network_util := 7 / 10, disk_io := 3 / 5 },
    reputation_score := rep, staked_tokens := stake }

/-- A list of `n` Byzantine-behavior fault reports against node `id`. -/
def reports (n : Nat) (id : String) : List (FaultType × String) :=
  List.replicate n (.ByzantineBehavior, id)

end FaultDet

/-!  ## Helper lemmas -/

theorem TaskPriority.disc_inj {a b : TaskMgr.TaskPriority} (h : a.disc = b.disc) : a = b := by
  cases a <;> cases b <;> first | rfl | simp [TaskMgr.TaskPriority.disc] at h

theorem popMax_cons_isSome (x : TaskMgr.ComputeTask) (xs : List TaskMgr.ComputeTask) :
    (TaskMgr.popMax (x :: xs)).isSome := by
  simp only [TaskMgr.popMax]
  rcases TaskMgr.popMax xs with _ | ⟨m, rest⟩
  · rfl
  · by_cases hc : TaskMgr.taskCmp x m = Ordering.lt <;> simp [hc]

theorem popMax_cons_perm :
    ∀ (q : List TaskMgr.ComputeTask) (t : TaskMgr.ComputeTask) (r : List TaskMgr.ComputeTask),
      TaskMgr.popMax q = some (t, r) → List.Perm (t :: r) q := by
  intro q
  induction q with
  | nil => intro t r h; simp [TaskMgr.popMax] at h
  | cons x xs ih =>
    intro t r h
    simp only [TaskMgr.popMax] at h
    rcases hx : TaskMgr.popMax xs with _ | ⟨m, rest⟩ <;> rw [hx] at h <;> dsimp only at h
    · simp only [Option.some.injEq, Prod.mk.injEq] at h
      obtain ⟨h1, h2⟩ := h
      subst h1; subst h2
      have hnil : xs = [] := by
        cases xs with
        | nil => rfl
        | cons y ys =>
          have hs := popMax_cons_isSome y ys
          rw [hx] at hs
          simp at hs
      subst hnil
      exact List.Perm.refl _
    · by_cases hc : TaskMgr.taskCmp x m = Ordering.lt
      · rw [if_pos hc] at h
        simp only [Option.some.injEq, Prod.mk.injEq] at h
        obtain ⟨h1, h2⟩ := h
        subst h1; subst h2
        have hp := ih m rest hx
        exact (List.Perm.swap x m rest).trans (List.Perm.cons x hp)
      · rw [if_neg hc] at h
        simp only [Option.some.injEq, Prod.mk.injEq] at h
        obtain ⟨h1, h2⟩ := h
        subst h1; subst h2
        exact List.Perm.refl _

/-!  ## Claims -/

/-- Claim C1.  On the spec's two-device scenario (Device1: 16 GiB of 32 GiB used,
Device2 empty, both feasible for the 8 GiB fp16 task), the spec's weighted
formula gives Device2 (`gpu2`) the lower score — but the code's
`BestFitWithScoring::schedule` returns `gpu1`: `calculate_fitness_score`
returns the *reciprocal* of the weighted sum and the heap still pops the
minimal score, so the strategy picks the device with the *highest* memory
pressure.  This also makes the repository's own test
`test_best_fit_allocation` (which asserts `gpu2`) fail. -/
theorem best_fit_selects_fuller_device :
    (BinPack.BestFitWithScoring.schedule BinPack.task1
        [BinPack.testGpu "gpu1" 16384, BinPack.testGpu "gpu2" 0]).1 =
      Except.ok "gpu1" ∧
    BinPack.spec_fitness_score (BinPack.testGpu "gpu2" 0) BinPack.task1 <
      BinPack.spec_fitness_score (BinPack.testGpu "gpu1" 16384) BinPack.task1 ∧
    BinPack.meets_task_requirements (BinPack.testGpu "gpu1" 16384) BinPack.task1 = true ∧
    BinPack.meets_task_requirements (BinPack.testGpu "gpu2" 0) BinPack.task1 = true := by
  refine ⟨by decide, by decide, by decide, by decide⟩

/-- Claim C2.  Pending tasks are dequeued in priority-descending order with
first-submitted-first-served tie-break: `taskCmp a b = gt` holds exactly when
`a` has strictly higher priority, or equal priority and strictly earlier
creation time; consequently, for {A: Low, created 0}, {B: High, created 1},
{C: High, created 0}, every insertion order of the pending queue is drained
as C, B, A. -/
theorem priority_ordering_fifo_tiebreak :
    (∀ a b : TaskMgr.ComputeTask, TaskMgr.taskCmp a b = Ordering.gt ↔
      (b.priority.disc < a.priority.disc ∨
        (a.priority = b.priority ∧ a.created_at < b.created_at))) ∧
    (∀ q ∈ [[TaskMgr.taskA, TaskMgr.taskB, TaskMgr.taskC],
            [TaskMgr.taskA, TaskMgr.taskC, TaskMgr.taskB],
            [TaskMgr.taskB, TaskMgr.taskA, TaskMgr.taskC],
            [TaskMgr.taskB, TaskMgr.taskC, TaskMgr.taskA],
            [TaskMgr.taskC, TaskMgr.taskA, TaskMgr.taskB],
            [TaskMgr.taskC, TaskMgr.taskB, TaskMgr.taskA]],
      TaskMgr.drain 3 q = [TaskMgr.taskC, TaskMgr.taskB, TaskMgr.taskA]) := by
  constructor
  · intro a b
    unfold TaskMgr.taskCmp
    rcases Nat.lt_trichotomy a.priority.disc b.priority.disc with h | h | h
    · have hc : compare a.priority.disc b.priority.disc = Ordering.lt :=
        Nat.compare_eq_lt.2 h
      rw [hc]
      simp only [Ordering.then]
      constructor
      · intro hgt; cases hgt
      · rintro (hlt | ⟨heq, _⟩)
        · exact absurd hlt (Nat.lt_asymm h)
        · exact absurd (congrArg TaskMgr.TaskPriority.disc heq) (Nat.ne_of_lt h)
    · have hc : compare a.priority.disc b.priority.disc = Ordering.eq :=
        Nat.compare_eq_eq.2 h
      rw [hc]
      simp only [Ordering.then]
      have hpeq : a.priority = b.priority := TaskPriority.disc_inj h
      constructor
      · intro hgt
        refine Or.inr ⟨hpeq, Nat.compare_eq_lt.1 ?_⟩
        have hswap := congrArg Ordering.swap hgt
        rwa [Ordering.swap_swap] at hswap
      · rintro (hlt | ⟨_, hlt⟩)
        · exact absurd hlt (by omega)
        · rw [Nat.compare_eq_lt.2 hlt]; rfl
    · have hc : compare a.priority.disc b.priority.disc = Ordering.gt :=
        Nat.compare_eq_gt.2 h
      rw [hc]
      simp only [Ordering.then]
      exact ⟨fun _ => Or.inl h, fun _ => trivial⟩
  · decide

/-- Claim C3.  Head-of-line blocking: within one scheduling cycle, if
`can_allocate` fails for the highest-priority pending task, the cycle
returns that task to the pending queue (the resulting queue is a
permutation of the original) and stops scanning — pool and running set are
untouched and no other pending task is attempted. -/
theorem head_of_line_blocking (now : Nat) (q : List TaskMgr.ComputeTask)
    (pool : TaskMgr.ResourcePool) (running : List (String × TaskMgr.ComputeTask))
    (task : TaskMgr.ComputeTask) (rest : List TaskMgr.ComputeTask)
    (hpop : TaskMgr.popMax q = some (task, rest))
    (hcan : TaskMgr.can_allocate task.requirements pool = false) :
    TaskMgr.schedule_tasks_cycle now q pool running = (task :: rest, pool, running) ∧
    List.Perm (task :: rest) q := by
  refine ⟨?_, popMax_cons_perm _ _ _ hpop⟩
  cases q with
  | nil => simp [TaskMgr.popMax] at hpop
  | cons x xs =>
    unfold TaskMgr.schedule_tasks_cycle
    simp only [List.length_cons]
    unfold TaskMgr.schedule_cycle
    rw [hpop]
    simp [hcan]

/-- Witness for C3: a pool with no free memory cannot take a task that wants
4 GB, so the cycle pushes it back and stops. -/
theorem head_of_line_blocking_witness :
    TaskMgr.popMax [TaskMgr.mkTask "W" .High 0 TaskMgr.reqMem4] =
      some (TaskMgr.mkTask "W" .High 0 TaskMgr.reqMem4, []) ∧
    TaskMgr.can_allocate TaskMgr.reqMem4
      { gpu_devices := [], available_memory_gb := 0, total_memory_gb := 0 } = false ∧
    TaskMgr.schedule_tasks_cycle 5 [TaskMgr.mkTask "W" .High 0 TaskMgr.reqMem4]
      { gpu_devices := [], available_memory_gb := 0, total_memory_gb := 0 } [] =
      ([TaskMgr.mkTask "W" .High 0 TaskMgr.reqMem4],
       { gpu_devices := [], available_memory_gb := 0, total_memory_gb := 0 }, []) :=
  ⟨by decide, by decide,
   (head_of_line_blocking 5 _ _ [] _ _ (by decide) (by decide)).1⟩

/-- Claim C4.  Device-invariant preservation by `allocate_resources`: starting
from a device with `used_memory ≤ total_memory` and
`0 ≤ current_utilization ≤ 1`, every successful allocation yields a device
satisfying the same bounds; the memory bound is checked first and reported
as `ResourceConflict`, the utilization bound second and reported as
`SchedulerOverload`, both before any mutation (the function returns the
errors without touching the device). -/
theorem allocate_preserves_invariant (gpu : BinPack.GpuResource) (task : BinPack.ComputeTask)
    (hmem : gpu.used_memory ≤ gpu.total_memory)
    (h0 : 0 ≤ gpu.current_utilization) (h1 : gpu.current_utilization ≤ 1) :
    (∀ gpu', BinPack.allocate_resources gpu task = .ok gpu' →
      gpu'.used_memory ≤ gpu'.total_memory ∧
      0 ≤ gpu'.current_utilization ∧
      gpu'.current_utilization ≤ 1 ∧
      gpu'.total_memory = gpu.total_memory) ∧
    (gpu.total_memory < BinPack.u64Add gpu.used_memory task.required_memory →
      BinPack.allocate_resources gpu task =
        .error (.ResourceConflict ("Memory exceeded on GPU " ++ gpu.id))) ∧
    (BinPack.u64Add gpu.used_memory task.required_memory ≤ gpu.total_memory →
      (1 : ℚ) < gpu.current_utilization + (task.min_cuda_cores : ℚ) / (gpu.cuda_cores : ℚ) →
      BinPack.allocate_resources gpu task =
        .error (.SchedulerOverload ("GPU " ++ gpu.id ++ " utilization over 100%"))) := by
  refine ⟨?_, ?_, ?_⟩
  · intro gpu' hok
    unfold BinPack.allocate_resources at hok
    by_cases hc1 : gpu.total_memory < BinPack.u64Add gpu.used_memory task.required_memory
    · rw [if_pos hc1] at hok
      exact absurd hok (by simp)
    · rw [if_neg hc1] at hok
      by_cases hc2 : (1 : ℚ) < gpu.current_utilization + (task.min_cuda_cores : ℚ) / (gpu.cuda_cores : ℚ)
      · rw [if_pos hc2] at hok
        exact absurd hok (by simp)
      · rw [if_neg hc2] at hok
        injection hok with h'
        subst h'
        refine ⟨not_lt.1 hc1, ?_, not_lt.1 hc2, rfl⟩
        exact add_nonneg h0 (div_nonneg (Nat.cast_nonneg _) (Nat.cast_nonneg _))
  · intro hc1
    unfold BinPack.allocate_resources
    rw [if_pos hc1]
  · intro hc1 hc2
    unfold BinPack.allocate_resources
    rw [if_neg (not_lt.2 hc1), if_pos hc2]

/-- Witness for C4: allocating the 8 GiB fp16 task on an empty test device
succeeds and the resulting device satisfies the invariant. -/
theorem allocate_preserves_invariant_witness :
    (BinPack.testGpu "gpu1" 0).used_memory ≤ (BinPack.testGpu "gpu1" 0).total_memory ∧
    BinPack.allocate_resources (BinPack.testGpu "gpu1" 0) BinPack.task1 =
      .ok { BinPack.testGpu "gpu1" 0 with
              used_memory := 8192, current_utilization := 1 / 5 } ∧
    ({ BinPack.testGpu "gpu1" 0 with
         used_memory := 8192, current_utilization := 1 / 5 } :
        BinPack.GpuResource).current_utilization ≤ 1 :=
  ⟨by decide, by decide,
   ((allocate_preserves_invariant (BinPack.testGpu "gpu1" 0) BinPack.task1
      (by decide) (by decide) (by decide)).1 _ (by decide)).2.2.1⟩

/-- Claim C9.  Capacity rejection with atomicity: if no device in the pool meets
the feasibility predicate for a task, both scheduling strategies return
`InsufficientResource` for that task and leave every device unchanged. -/
theorem infeasible_task_rejected_pool_unchanged (task : BinPack.ComputeTask)
    (pool : List BinPack.GpuResource)
    (hfail : ∀ g ∈ pool, BinPack.meets_task_requirements g task = false) :
    BinPack.MultiDimFirstFit.schedule task pool =
      (.error (.InsufficientResource task.task_id "No suitable GPU found"), pool) ∧
    BinPack.BestFitWithScoring.schedule task pool =
      (.error (.InsufficientResource task.task_id "No suitable GPU found"), pool) := by
  constructor
  · induction pool with
    | nil => rfl
    | cons g gs ih =>
      have hg := hfail g (List.mem_cons_self g gs)
      have hgs := fun x hx => hfail x (List.mem_cons_of_mem g hx)
      unfold BinPack.MultiDimFirstFit.schedule
      rw [hg]
      simp only [Bool.false_eq_true, if_false]
      rw [ih hgs]
  · have hsel : BinPack.bestFitSelect task pool = none := by
      unfold BinPack.bestFitSelect
      have : pool.filter (fun g => BinPack.meets_task_requirements g task) = [] := by
        rw [List.filter_eq_nil_iff]
        intro g hg
        rw [hfail g hg]
        simp
      rw [this]
      rfl
    unfold BinPack.BestFitWithScoring.schedule
    rw [hsel]

/-- Witness for C9: a 40 GiB task against a single empty 32 GiB device (the
repository's `test_insufficient_memory` input). -/
theorem infeasible_task_rejected_pool_unchanged_witness :
    BinPack.meets_task_requirements (BinPack.testGpu "gpu1" 0) BinPack.bigTask = false ∧
    BinPack.MultiDimFirstFit.schedule BinPack.bigTask [BinPack.testGpu "gpu1" 0] =
      (.error (.InsufficientResource "task1" "No suitable GPU found"),
       [BinPack.testGpu "gpu1" 0]) :=
  ⟨by decide,
   (infeasible_task_rejected_pool_unchanged BinPack.bigTask [BinPack.testGpu "gpu1" 0]
     (by intro g hg; rw [List.mem_singleton] at hg; subst hg; decide)).1⟩

/-- The `f32` tenth `(stake * 0.1) as u64`, over exact rationals, is `Nat`
division by ten. -/
theorem floor_tenth (s : Nat) : Int.toNat ⌊(s : ℚ) * (1 / 10)⌋ = s / 10 := by
  rw [Int.floor_toNat, mul_one_div, show ((10 : ℚ)) = ((10 : ℕ) : ℚ) by norm_num,
    Nat.floor_div_nat, Nat.floor_natCast]

/-- A node with a positive fault-filter count occurs in the fault list. -/
theorem any_of_filter_length (faults : List (FaultDet.FaultType × String)) (id : String)
    (k : Nat) (hk : (faults.filter (fun f => f.2 = id)).length = k + 1) :
    faults.any (fun f => f.2 = id) = true := by
  have hpos : 0 < (faults.filter (fun f => decide (f.2 = id))).length := by
    rw [hk]; exact Nat.succ_pos k
  obtain ⟨x, hx⟩ := List.length_pos_iff_exists_mem.1 hpos
  rw [List.mem_filter] at hx
  exact List.any_eq_true.2 ⟨x, hx.1, hx.2⟩

/-- Claim C5.  Fault consensus: with consensus ratio 0.6 (integer threshold 6), a
node with 7 fault reports in the cycle has its stake cut by exactly 10 %
(`⌊stake/10⌋`, saturating at zero) and its reputation cut by exactly 10
points (saturating at zero), while a node with only 5 reports is untouched;
the pending fault list is cleared unconditionally. -/
theorem fault_consensus_penalty (h₁ h₂ : FaultDet.NodeHealth) (n m : String)
    (hne : n ≠ m) (faults : List (FaultDet.FaultType × String))
    (h7 : (faults.filter (fun f => f.2 = n)).length = 7)
    (h5 : (faults.filter (fun f => f.2 = m)).length = 5) :
    (FaultDet.verify_consensus (FaultDet.consensus_threshold_of (3 / 5)) faults
        [(n, h₁), (m, h₂)]).1 = [] ∧
    (FaultDet.verify_consensus (FaultDet.consensus_threshold_of (3 / 5)) faults
        [(n, h₁), (m, h₂)]).2.1 =
      [(n, { h₁ with staked_tokens := h₁.staked_tokens - h₁.staked_tokens / 10,
                     reputation_score := h₁.reputation_score - 10 }),
       (m, h₂)] := by
  have hth : FaultDet.consensus_threshold_of (3 / 5) = 6 := by decide
  have hcn : FaultDet.countFaults n faults = 7 := by
    unfold FaultDet.countFaults; rw [h7]
  have hcm : FaultDet.countFaults m faults = 5 := by
    unfold FaultDet.countFaults; rw [h5]
  have hpn : FaultDet.penalized 6 faults n = true := by
    unfold FaultDet.penalized
    rw [any_of_filter_length faults n 6 h7, hcn]
    rfl
  have hpm : FaultDet.penalized 6 faults m = false := by
    unfold FaultDet.penalized
    rw [hcm]
    simp
  rw [hth]
  refine ⟨rfl, ?_⟩
  unfold FaultDet.verify_consensus
  simp only [List.map_cons, List.map_nil, hpn, hpm, if_true, if_false,
    Bool.false_eq_true]
  unfold FaultDet.apply_penalties
  rw [floor_tenth]

/-- Witness for C5: the repository's `test_consensus_penalty` scenario — the
node with 7 reports goes from stake 500 / reputation 30 to 450 / 20; a
bystander with 5 reports is unchanged. -/
theorem fault_consensus_penalty_witness :
    ("bad" ≠ "ok") ∧
    ((FaultDet.reports 7 "bad" ++ FaultDet.reports 5 "ok").filter
      (fun f => f.2 = "bad")).length = 7 ∧
    (FaultDet.verify_consensus (FaultDet.consensus_threshold_of (3 / 5))
        (FaultDet.reports 7 "bad" ++ FaultDet.reports 5 "ok")
        [("bad", FaultDet.mkHealth 30 500), ("ok", FaultDet.mkHealth 50 1000)]).2.1 =
      [("bad", { FaultDet.mkHealth 30 500 with
                   staked_tokens := (FaultDet.mkHealth 30 500).staked_tokens -
                     (FaultDet.mkHealth 30 500).staked_tokens / 10,
                   reputation_score := (FaultDet.mkHealth 30 500).reputation_score - 10 }),
       ("ok", FaultDet.mkHealth 50 1000)] :=
  ⟨by decide, by decide,
   (fault_consensus_penalty (FaultDet.mkHealth 30 500) (FaultDet.mkHealth 50 1000)
      "bad" "ok" (by decide) (FaultDet.reports 7 "bad" ++ FaultDet.reports 5 "ok")
      (by decide) (by decide)).2⟩

/-- Claim C8 counterexample.  The quarantined state is *not* tracked as an
attribute of the node's health record: node `a` (reputation 29, stake 10,
7 reports — penalized to reputation 19, `quarantine_node` invoked) ends the
cycle with a health record identical to that of a node that was never
quarantined (reputation 19, stake 9, only 5 reports, no penalty).  No
attribute of `NodeHealth` can distinguish the quarantined node —
`quarantine_node` is an empty placeholder in the source and `NodeHealth`
has no quarantine field. -/
theorem quarantine_not_tracked_counterexample :
    (FaultDet.verify_consensus 6 (FaultDet.reports 7 "a")
        [("a", FaultDet.mkHealth 29 10)]).2.1 =
      (FaultDet.verify_consensus 6 (FaultDet.reports 5 "a")
        [("a", FaultDet.mkHealth 19 9)]).2.1 ∧
    (FaultDet.verify_consensus 6 (FaultDet.reports 7 "a")
        [("a", FaultDet.mkHealth 29 10)]).2.2 = ["a"] ∧
    (FaultDet.verify_consensus 6 (FaultDet.reports 5 "a")
        [("a", FaultDet.mkHealth 19 9)]).2.2 = [] := by
  refine ⟨by decide, by decide, by decide⟩

/-- Claim C8 amended.  Whenever a penalty application brings a node's reputation
below 20, `quarantine_node` is invoked for that node (the id appears in the
invocation list) and the node remains registered — its penalized record is
still in the registry, not deleted; the quarantine itself changes no
state (`quarantine_node` is a placeholder), so no health-record attribute
records it. -/
theorem quarantine_invoked_node_kept (threshold : Nat)
    (faults : List (FaultDet.FaultType × String))
    (registry : List (String × FaultDet.NodeHealth)) (id : String)
    (h : FaultDet.NodeHealth)
    (hmem : (id, h) ∈ registry)
    (hpen : FaultDet.penalized threshold faults id = true)
    (hrep : (FaultDet.apply_penalties h).1.reputation_score < 20) :
    (id, (FaultDet.apply_penalties h).1) ∈
      (FaultDet.verify_consensus threshold faults registry).2.1 ∧
    id ∈ (FaultDet.verify_consensus threshold faults registry).2.2 := by
  constructor
  · unfold FaultDet.verify_consensus
    have hmap := List.mem_map_of_mem
      (fun e : String × FaultDet.NodeHealth =>
        if FaultDet.penalized threshold faults e.1 then
          (e.1, (FaultDet.apply_penalties e.2).1) else e) hmem
    simpa [hpen] using hmap
  · unfold FaultDet.verify_consensus
    refine List.mem_map.2 ⟨(id, h), ?_, rfl⟩
    rw [List.mem_filter]
    refine ⟨hmem, ?_⟩
    have hq : (FaultDet.apply_penalties h).2 = true := by
      unfold FaultDet.apply_penalties
      unfold FaultDet.apply_penalties at hrep
      exact decide_eq_true hrep
    rw [hpen, hq]
    rfl

/-- Witness for the amended C8: the node from the repository's test with
reputation 29: after 7 reports its penalized record (reputation 19) stays
in the registry and `quarantine_node` is invoked on it. -/
theorem quarantine_invoked_node_kept_witness :
    FaultDet.penalized 6 (FaultDet.reports 7 "a") "a" = true ∧
    ("a", (FaultDet.apply_penalties (FaultDet.mkHealth 29 10)).1) ∈
      (FaultDet.verify_consensus 6 (FaultDet.reports 7 "a")
        [("a", FaultDet.mkHealth 29 10)]).2.1 ∧
    "a" ∈ (FaultDet.verify_consensus 6 (FaultDet.reports 7 "a")
        [("a", FaultDet.mkHealth 29 10)]).2.2 :=
  ⟨by decide,
   (quarantine_invoked_node_kept 6 (FaultDet.reports 7 "a")
      [("a", FaultDet.mkHealth 29 10)] "a" (FaultDet.mkHealth 29 10)
      (by decide) (by decide) (by decide)).1,
   (quarantine_invoked_node_kept 6 (FaultDet.reports 7 "a")
      [("a", FaultDet.mkHealth 29 10)] "a" (FaultDet.mkHealth 29 10)
      (by decide) (by decide) (by decide)).2⟩

/-- The GPU-release loop only renames nothing and only ever decrements a
device's allocation, by exactly the required amount and only when the
device holds at least that much. -/
theorem release_gpus_spec (reqmem count : Nat) :
    ∀ (gs : List TaskMgr.GpuResource) (released : Nat),
      List.Forall₂ (fun g' g =>
          g'.device_id = g.device_id ∧ g'.total_memory = g.total_memory ∧
          (g'.memory_allocated = g.memory_allocated ∨
            (reqmem ≤ g.memory_allocated ∧
             g'.memory_allocated = g.memory_allocated - reqmem)))
        (TaskMgr.release_gpus reqmem count gs released) gs := by
  intro gs
  induction gs with
  | nil => intro released; exact List.Forall₂.nil
  | cons g rest ih =>
    intro released
    unfold TaskMgr.release_gpus
    by_cases h1 : count ≤ released
    · rw [if_pos h1]
      rw [List.forall₂_same]
      intro x _
      exact ⟨rfl, rfl, Or.inl rfl⟩
    · rw [if_neg h1]
      by_cases h2 : reqmem ≤ g.memory_allocated
      · rw [if_pos h2]
        exact List.Forall₂.cons ⟨rfl, rfl, Or.inr ⟨h2, rfl⟩⟩ (ih _)
      · rw [if_neg h2]
        exact List.Forall₂.cons ⟨rfl, rfl, Or.inl rfl⟩ (ih _)

/-- Claim C7 counterexample.  Releasing resources for a task that never held any
allocation is *not* a no-op: on an empty-device pool with 10 GB free,
releasing a 4 GB requirement raises the free-memory counter to 14 GB. -/
theorem release_without_allocation_changes_pool :
    TaskMgr.release_resources TaskMgr.reqMem4 TaskMgr.poolFree10 ≠ TaskMgr.poolFree10 ∧
    (TaskMgr.release_resources TaskMgr.reqMem4 TaskMgr.poolFree10).available_memory_gb = 14 ∧
    TaskMgr.poolFree10.available_memory_gb = 10 := by
  refine ⟨by decide, by decide, by decide⟩

/-- Claim C7 amended.  `release_resources` is unconditional, not idempotent: every
call credits exactly `memory_gb` to the pool's free-memory counter —
whether or not the task holds an allocation — and decrements device
allocations only by the guarded amount, so device counters never underflow
and no balance goes negative, but a repeated release inflates the
free-memory counter instead of being a no-op. -/
theorem release_unconditional_accounting (req : TaskMgr.ResourceRequirements)
    (pool : TaskMgr.ResourcePool) :
    (TaskMgr.release_resources req pool).available_memory_gb =
      pool.available_memory_gb + req.memory_gb ∧
    List.Forall₂ (fun g' g =>
        g'.device_id = g.device_id ∧ g'.total_memory = g.total_memory ∧
        (g'.memory_allocated = g.memory_allocated ∨
          (req.memory_gb * 1024 * 1024 * 1024 ≤ g.memory_allocated ∧
           g'.memory_allocated = g.memory_allocated - req.memory_gb * 1024 * 1024 * 1024)))
      (TaskMgr.release_resources req pool).gpu_devices pool.gpu_devices := by
  unfold TaskMgr.release_resources
  by_cases hg : 0 < req.gpu_count
  · rw [if_pos hg]
    exact ⟨rfl, release_gpus_spec _ _ _ _⟩
  · rw [if_neg hg]
    refine ⟨rfl, ?_⟩
    rw [List.forall₂_same]
    intro x _
    exact ⟨rfl, rfl, Or.inl rfl⟩

/-- Entries of an association-list insert: the new entry or an old one. -/
theorem mem_insertAssoc (k : String) (v : TaskMgr.ComputeTask) :
    ∀ (l : List (String × TaskMgr.ComputeTask)) (e : String × TaskMgr.ComputeTask),
      e ∈ TaskMgr.insertAssoc k v l → e = (k, v) ∨ e ∈ l := by
  intro l
  induction l with
  | nil =>
    intro e he
    simp [TaskMgr.insertAssoc] at he
    exact Or.inl he
  | cons x xs ih =>
    intro e he
    unfold TaskMgr.insertAssoc at he
    by_cases hx : x.1 = k
    · rw [if_pos hx] at he
      rcases List.mem_cons.1 he with h | h
      · exact Or.inl h
      · exact Or.inr (List.mem_cons_of_mem x h)
    · rw [if_neg hx] at he
      rcases List.mem_cons.1 he with h | h
      · exact Or.inr (h ▸ List.mem_cons_self x xs)
      · rcases ih e h with h' | h'
        · exact Or.inl h'
        · exact Or.inr (List.mem_cons_of_mem x h')

/-- Any entry of the running map after a scheduling cycle was already
running or is a queue element, stored unchanged under its own task id. -/
theorem schedule_cycle_running_mem (now : Nat) :
    ∀ (fuel : Nat) (q : List TaskMgr.ComputeTask) (pool : TaskMgr.ResourcePool)
      (running : List (String × TaskMgr.ComputeTask)) (e : String × TaskMgr.ComputeTask),
      e ∈ (TaskMgr.schedule_cycle now fuel q pool running).2.2 →
      e ∈ running ∨ (e.2 ∈ q ∧ e.1 = e.2.task_id) := by
  intro fuel
  induction fuel with
  | zero =>
    intro q pool running e he
    exact Or.inl he
  | succ fuel ih =>
    intro q pool running e he
    unfold TaskMgr.schedule_cycle at he
    cases hpop : TaskMgr.popMax q with
    | none =>
      rw [hpop] at he
      exact Or.inl he
    | some pr =>
      obtain ⟨task, rest⟩ := pr
      rw [hpop] at he
      dsimp only at he
      have hperm := popMax_cons_perm q task rest hpop
      by_cases hcan : TaskMgr.can_allocate task.requirements pool = true
      · rw [if_pos hcan] at he
        rcases hst : TaskMgr.start_task now task pool with ⟨r, pool'⟩
        rw [hst] at he
        cases r with
        | error err =>
          dsimp only at he
          rcases ih rest pool' running e he with h | ⟨h1, h2⟩
          · exact Or.inl h
          · exact Or.inr ⟨hperm.subset (List.mem_cons_of_mem task h1), h2⟩
        | ok c =>
          dsimp only at he
          rcases ih rest pool' (TaskMgr.insertAssoc task.task_id task running) e he
            with h | ⟨h1, h2⟩
          · rcases mem_insertAssoc task.task_id task running e h with h' | h'
            · subst h'
              exact Or.inr ⟨hperm.subset (List.mem_cons_self task rest), rfl⟩
            · exact Or.inl h'
          · exact Or.inr ⟨hperm.subset (List.mem_cons_of_mem task h1), h2⟩
      · rw [if_neg hcan] at he
        exact Or.inl he

/-- Claim C10.  The record a scheduling cycle stores in the running set is the
submitted task, unmodified: every entry of the resulting running map is
either a pre-existing entry or a pending-queue element stored as-is under
its own id (in particular `state` and `updated_at` keep their submission
values); the `Running`-state and fresh-timestamp update happens only on the
clone `start_task` returns, which the cycle drops. -/
theorem running_set_stores_submitted_task (now : Nat)
    (q : List TaskMgr.ComputeTask) (pool : TaskMgr.ResourcePool)
    (running : List (String × TaskMgr.ComputeTask)) (e : String × TaskMgr.ComputeTask)
    (hmem : e ∈ (TaskMgr.schedule_tasks_cycle now q pool running).2.2) :
    (e ∈ running ∨ (e.2 ∈ q ∧ e.1 = e.2.task_id)) ∧
    (∀ (t : TaskMgr.ComputeTask) (p p' : TaskMgr.ResourcePool) (c : TaskMgr.ComputeTask),
      TaskMgr.start_task now t p = (.ok c, p') →
      c = { t with state := .Running, updated_at := now }) := by
  constructor
  · exact schedule_cycle_running_mem now q.length q pool running e hmem
  · intro t p p' c hst
    unfold TaskMgr.start_task at hst
    by_cases hg : 0 < t.requirements.gpu_count
    · rw [if_pos hg] at hst
      by_cases ha : (TaskMgr.alloc_gpus (t.requirements.memory_gb * 1024 * 1024 * 1024)
          t.requirements.gpu_count p.gpu_devices 0).2 < t.requirements.gpu_count
      · rw [if_pos ha] at hst
        simp at hst
      · rw [if_neg ha] at hst
        simp only [Prod.mk.injEq, Except.ok.injEq] at hst
        exact hst.1.symm
    · rw [if_neg hg] at hst
      simp only [Prod.mk.injEq, Except.ok.injEq] at hst
      exact hst.1.symm

/-- Witness for C10: scheduling a feasible pending task stores it unchanged in
the running set. -/
theorem running_set_stores_submitted_task_witness :
    (("W", TaskMgr.mkTask "W" .High 0 TaskMgr.reqMem4) ∈
      (TaskMgr.schedule_tasks_cycle 42 [TaskMgr.mkTask "W" .High 0 TaskMgr.reqMem4]
        TaskMgr.poolFree10 []).2.2) ∧
    ((("W", TaskMgr.mkTask "W" .High 0 TaskMgr.reqMem4) ∈
        ([] : List (String × TaskMgr.ComputeTask))) ∨
      ((TaskMgr.mkTask "W" .High 0 TaskMgr.reqMem4 ∈
          [TaskMgr.mkTask "W" .High 0 TaskMgr.reqMem4]) ∧
        ("W", TaskMgr.mkTask "W" .High 0 TaskMgr.reqMem4).1 =
          ("W", TaskMgr.mkTask "W" .High 0 TaskMgr.reqMem4).2.task_id)) :=
  ⟨by decide,
   (running_set_stores_submitted_task 42 [TaskMgr.mkTask "W" .High 0 TaskMgr.reqMem4]
      TaskMgr.poolFree10 [] ("W", TaskMgr.mkTask "W" .High 0 TaskMgr.reqMem4)
      (by decide)).1⟩

/-- Accounting of `available_memory_gb` in a release: always credited by
exactly `memory_gb`. -/
theorem release_available (req : TaskMgr.ResourceRequirements) (pool : TaskMgr.ResourcePool) :
    (TaskMgr.release_resources req pool).available_memory_gb =
      pool.available_memory_gb + req.memory_gb := by
  unfold TaskMgr.release_resources
  by_cases hg : 0 < req.gpu_count
  · rw [if_pos hg]
  · rw [if_neg hg]

/-- A key is looked up successfully exactly when it occurs in the map. -/
theorem lookupAssoc_isSome_iff (k : String) :
    ∀ l : List (String × TaskMgr.ComputeTask),
      (TaskMgr.lookupAssoc k l).isSome ↔ k ∈ l.map Prod.fst := by
  intro l
  induction l with
  | nil => simp [TaskMgr.lookupAssoc]
  | cons e rest ih =>
    simp only [TaskMgr.lookupAssoc, List.map_cons, List.mem_cons]
    by_cases he : e.1 = k
    · rw [if_pos he]
      simp [he.symm]
    · rw [if_neg he]
      rw [ih]
      constructor
      · exact fun h => Or.inr h
      · rintro (h | h)
        · exact absurd h.symm he
        · exact h

/-- With `Nodup` keys, lookup finds exactly the stored value. -/
theorem lookupAssoc_of_mem_nodup :
    ∀ (l : List (String × TaskMgr.ComputeTask)) (k : String) (v : TaskMgr.ComputeTask),
      (l.map Prod.fst).Nodup → (k, v) ∈ l → TaskMgr.lookupAssoc k l = some v := by
  intro l
  induction l with
  | nil => intro k v _ h; simp at h
  | cons e rest ih =>
    intro k v hN hmem
    simp only [List.map_cons, List.nodup_cons] at hN
    unfold TaskMgr.lookupAssoc
    rcases List.mem_cons.1 hmem with h | h
    · subst h
      rw [if_pos rfl]
    · have hke : e.1 ≠ k := by
        intro hk
        exact hN.1 (hk ▸ List.mem_map_of_mem Prod.fst h)
      rw [if_neg hke]
      exact ih k v hN.2 h

/-- Removing one key leaves lookups of other keys unchanged. -/
theorem lookupAssoc_removeAssoc_ne (k k' : String) (hne : k' ≠ k) :
    ∀ l : List (String × TaskMgr.ComputeTask),
      TaskMgr.lookupAssoc k' (TaskMgr.removeAssoc k l) = TaskMgr.lookupAssoc k' l := by
  intro l
  induction l with
  | nil => rfl
  | cons e rest ih =>
    unfold TaskMgr.removeAssoc
    by_cases he : e.1 = k
    · rw [if_pos he]
      have hek : e.1 ≠ k' := by
        rw [he]; exact fun hh => hne hh.symm
      conv_rhs => unfold TaskMgr.lookupAssoc
      rw [if_neg hek]
    · rw [if_neg he]
      unfold TaskMgr.lookupAssoc
      by_cases he' : e.1 = k'
      · rw [if_pos he', if_pos he']
      · rw [if_neg he', if_neg he']
        exact ih

/-- Removal by key yields a sublist. -/
theorem removeAssoc_sublist (k : String) :
    ∀ l : List (String × TaskMgr.ComputeTask), (TaskMgr.removeAssoc k l).Sublist l := by
  intro l
  induction l with
  | nil => exact List.Sublist.refl _
  | cons e rest ih =>
    unfold TaskMgr.removeAssoc
    by_cases he : e.1 = k
    · rw [if_pos he]
      exact (List.Sublist.refl rest).cons e
    · rw [if_neg he]
      exact ih.cons₂ e

/-- With `Nodup` keys, removing a key is filtering it out. -/
theorem removeAssoc_eq_filter (k : String) :
    ∀ l : List (String × TaskMgr.ComputeTask), (l.map Prod.fst).Nodup →
      TaskMgr.removeAssoc k l = l.filter (fun e => !(decide (e.1 = k))) := by
  intro l
  induction l with
  | nil => intro _; rfl
  | cons e rest ih =>
    intro hN
    simp only [List.map_cons, List.nodup_cons] at hN
    unfold TaskMgr.removeAssoc
    by_cases he : e.1 = k
    · rw [if_pos he]
      have hall : ∀ x ∈ rest, (!(decide (x.1 = k))) = true := by
        intro x hx
        have hxk : x.1 ≠ k := by
          intro hxk
          exact hN.1 (by rw [he, ← hxk]; exact List.mem_map_of_mem Prod.fst hx)
        simp [hxk]
      rw [List.filter_cons, if_neg (by simp [he])]
      exact (List.filter_eq_self.2 hall).symm
    · rw [if_neg he]
      rw [List.filter_cons, if_pos (by simp [he])]
      rw [ih hN.2]

/-- With `Nodup` keys, two entries with the same key coincide. -/
theorem entry_unique_of_nodup :
    ∀ (l : List (String × TaskMgr.ComputeTask)) (a b : String × TaskMgr.ComputeTask),
      (l.map Prod.fst).Nodup → a ∈ l → b ∈ l → a.1 = b.1 → a = b := by
  intro l
  induction l with
  | nil => intro a b _ ha _ _; simp at ha
  | cons e rest ih =>
    intro a b hN ha hb hab
    simp only [List.map_cons, List.nodup_cons] at hN
    rcases List.mem_cons.1 ha with h1 | h1 <;> rcases List.mem_cons.1 hb with h2 | h2
    · rw [h1, h2]
    · exfalso
      apply hN.1
      rw [h1] at hab
      rw [hab]
      exact List.mem_map_of_mem Prod.fst h2
    · exfalso
      apply hN.1
      rw [h2] at hab
      rw [← hab]
      exact List.mem_map_of_mem Prod.fst h1
    · exact ih a b hN.2 h1 h2 hab

/-- What the timeout-removal fold does: for pairwise-distinct ids that all
occur in the (`Nodup`-keyed) running map, it filters those entries out and
credits the free-memory counter with each removed task's `memory_gb`. -/
theorem monitor_fold_spec :
    ∀ (ids : List String) (run : List (String × TaskMgr.ComputeTask))
      (pool : TaskMgr.ResourcePool),
      (run.map Prod.fst).Nodup → ids.Nodup →
      (∀ id ∈ ids, id ∈ run.map Prod.fst) →
      (ids.foldl TaskMgr.monitor_step (run, pool)).1 =
        run.filter (fun e => !(decide (e.1 ∈ ids))) ∧
      (ids.foldl TaskMgr.monitor_step (run, pool)).2.available_memory_gb =
        pool.available_memory_gb +
          (ids.map (fun id =>
            ((TaskMgr.lookupAssoc id run).map
              (fun t => t.requirements.memory_gb)).getD 0)).sum := by
  intro ids
  induction ids with
  | nil =>
    intro run pool hN _ _
    constructor
    · refine (List.filter_eq_self.2 ?_).symm
      intro a _
      simp
    · simp
  | cons id₀ rest ih =>
    intro run pool hN hids hsub
    have hid₀ : id₀ ∈ run.map Prod.fst := hsub id₀ (List.mem_cons_self _ _)
    obtain ⟨v, hv⟩ : ∃ v, TaskMgr.lookupAssoc id₀ run = some v := by
      have hs := (lookupAssoc_isSome_iff id₀ run).2 hid₀
      cases hl : TaskMgr.lookupAssoc id₀ run with
      | none => rw [hl] at hs; simp at hs
      | some v => exact ⟨v, rfl⟩
    simp only [List.nodup_cons] at hids
    have hstep : TaskMgr.monitor_step (run, pool) id₀ =
        (TaskMgr.removeAssoc id₀ run, TaskMgr.release_resources v.requirements pool) := by
      unfold TaskMgr.monitor_step
      rw [hv]
    have hNrm : ((TaskMgr.removeAssoc id₀ run).map Prod.fst).Nodup :=
      List.Nodup.sublist (List.Sublist.map Prod.fst (removeAssoc_sublist id₀ run)) hN
    have hsubrm : ∀ id ∈ rest, id ∈ (TaskMgr.removeAssoc id₀ run).map Prod.fst := by
      intro id hid
      have hne : id ≠ id₀ := fun h => hids.1 (h ▸ hid)
      rw [← lookupAssoc_isSome_iff, lookupAssoc_removeAssoc_ne id₀ id hne,
        lookupAssoc_isSome_iff]
      exact hsub id (List.mem_cons_of_mem _ hid)
    have hmain := ih (TaskMgr.removeAssoc id₀ run)
      (TaskMgr.release_resources v.requirements pool) hNrm hids.2 hsubrm
    rw [List.foldl_cons, hstep]
    constructor
    · rw [hmain.1, removeAssoc_eq_filter id₀ run hN, List.filter_filter]
      apply List.filter_congr
      intro e he
      by_cases h1 : e.1 = id₀ <;> by_cases h2 : e.1 ∈ rest <;>
        simp [h1, h2, List.mem_cons]
    · rw [hmain.2, release_available]
      have hw : ((TaskMgr.lookupAssoc id₀ run).map
          (fun t => t.requirements.memory_gb)).getD 0 = v.requirements.memory_gb := by
        rw [hv]; rfl
      have hmapeq : rest.map (fun id =>
            ((TaskMgr.lookupAssoc id (TaskMgr.removeAssoc id₀ run)).map
              (fun t => t.requirements.memory_gb)).getD 0) =
          rest.map (fun id =>
            ((TaskMgr.lookupAssoc id run).map
              (fun t => t.requirements.memory_gb)).getD 0) := by
        apply List.map_congr_left
        intro id hid
        have hne : id ≠ id₀ := fun h => hids.1 (h ▸ hid)
        rw [lookupAssoc_removeAssoc_ne id₀ id hne]
      rw [hmapeq, List.map_cons, List.sum_cons, hw]
      omega

/-- Claim C6 counterexample.  Timeout reclamation does *not* return device
counters to their pre-allocation values, and no task state is set to
`TimedOut`: allocating the 8 GiB one-GPU task places it on `gpu-big` (the
only device with room); after the timeout, `release_resources` debits the
*first* device holding ≥ 8 GiB, which is `gpu-small` — the pool ends with
`gpu-small` at 4 GiB (was 12 GiB) and `gpu-big` still at 8 GiB (was 0),
and the timed-out task is simply dropped from the running map with its
state never updated. -/
theorem timeout_release_wrong_device_counterexample :
    (TaskMgr.start_task 0 TaskMgr.taskT TaskMgr.poolT).2.gpu_devices =
      [TaskMgr.gpuSmall, { TaskMgr.gpuBig with memory_allocated := 8589934592 }] ∧
    TaskMgr.timedOut 100 TaskMgr.taskT = true ∧
    (TaskMgr.monitor_cycle 100 [("T", TaskMgr.taskT)]
        (TaskMgr.start_task 0 TaskMgr.taskT TaskMgr.poolT).2).1 = [] ∧
    (TaskMgr.monitor_cycle 100 [("T", TaskMgr.taskT)]
        (TaskMgr.start_task 0 TaskMgr.taskT TaskMgr.poolT).2).2 ≠ TaskMgr.poolT ∧
    (TaskMgr.monitor_cycle 100 [("T", TaskMgr.taskT)]
        (TaskMgr.start_task 0 TaskMgr.taskT TaskMgr.poolT).2).2.gpu_devices =
      [{ TaskMgr.gpuSmall with memory_allocated := 4294967296 },
       { TaskMgr.gpuBig with memory_allocated := 8589934592 }] := by
  refine ⟨by decide, by decide, by decide, by decide, by decide⟩

/-- Claim C6 amended.  What `monitor_timeouts` actually guarantees (for a
`Nodup`-keyed running map): every task whose elapsed time since its last
update exceeds its timeout is removed from the running set (exactly the
non-timed-out entries remain, no state is updated to `TimedOut`), and the
pool's free-memory counter is credited with each removed task's
`memory_gb`; device counters are only debited by the guarded first-fit
release, which need not hit the devices that held the allocation. -/
theorem timeout_reclamation_amended (now : Nat)
    (running : List (String × TaskMgr.ComputeTask)) (pool : TaskMgr.ResourcePool)
    (hN : (running.map Prod.fst).Nodup) :
    (TaskMgr.monitor_cycle now running pool).1 =
      running.filter (fun e => !(TaskMgr.timedOut now e.2)) ∧
    (TaskMgr.monitor_cycle now running pool).2.available_memory_gb =
      pool.available_memory_gb +
        ((running.filter (fun e => TaskMgr.timedOut now e.2)).map
          (fun e => e.2.requirements.memory_gb)).sum := by
  unfold TaskMgr.monitor_cycle
  have hTsub : (running.filter (fun e => TaskMgr.timedOut now e.2)).Sublist running :=
    List.filter_sublist running
  have hidsN : ((running.filter (fun e => TaskMgr.timedOut now e.2)).map Prod.fst).Nodup :=
    List.Nodup.sublist (List.Sublist.map Prod.fst hTsub) hN
  have hsub : ∀ id ∈ (running.filter (fun e => TaskMgr.timedOut now e.2)).map Prod.fst,
      id ∈ running.map Prod.fst := by
    intro id hid
    exact (List.Sublist.map Prod.fst hTsub).subset hid
  have hmain := monitor_fold_spec
    ((running.filter (fun e => TaskMgr.timedOut now e.2)).map Prod.fst)
    running pool hN hidsN hsub
  constructor
  · rw [hmain.1]
    apply List.filter_congr
    intro e he
    by_cases ht : TaskMgr.timedOut now e.2 = true
    · have hmem : e.1 ∈ (running.filter (fun x => TaskMgr.timedOut now x.2)).map Prod.fst :=
        List.mem_map_of_mem Prod.fst (List.mem_filter.2 ⟨he, ht⟩)
      simp [hmem, ht]
    · have hnmem : e.1 ∉ (running.filter (fun x => TaskMgr.timedOut now x.2)).map Prod.fst := by
        intro hmem
        rcases List.mem_map.1 hmem with ⟨x, hxT, hx1⟩
        have hxrun : x ∈ running := hTsub.subset hxT
        have hxe : x = e := entry_unique_of_nodup running x e hN hxrun he hx1
        have hxt := (List.mem_filter.1 hxT).2
        rw [hxe] at hxt
        exact ht hxt
      simp [hnmem, ht]
  · rw [hmain.2]
    congr 1
    rw [List.map_map]
    refine congrArg List.sum ?_
    apply List.map_congr_left
    intro e heT
    have herun : e ∈ running := hTsub.subset heT
    have hl : TaskMgr.lookupAssoc e.1 running = some e.2 :=
      lookupAssoc_of_mem_nodup running e.1 e.2 hN herun
    simp [Function.comp, hl]

/-- Witness for the amended C6: the timed-out task `T` (timeout 10 s, last update
at 0, now 100) is removed and its 8 GB are credited back to the pool. -/
theorem timeout_reclamation_amended_witness :
    (([("T", TaskMgr.taskT)].map Prod.fst).Nodup) ∧
    (TaskMgr.monitor_cycle 100 [("T", TaskMgr.taskT)] TaskMgr.poolT).1 =
      [("T", TaskMgr.taskT)].filter (fun e => !(TaskMgr.timedOut 100 e.2)) ∧
    (TaskMgr.monitor_cycle 100 [("T", TaskMgr.taskT)] TaskMgr.poolT).2.available_memory_gb =
      TaskMgr.poolT.available_memory_gb +
        (([("T", TaskMgr.taskT)].filter (fun e => TaskMgr.timedOut 100 e.2)).map
          (fun e => e.2.requirements.memory_gb)).sum :=
  ⟨by decide,
   (timeout_reclamation_amended 100 [("T", TaskMgr.taskT)] TaskMgr.poolT (by decide)).1,
   (timeout_reclamation_amended 100 [("T", TaskMgr.taskT)] TaskMgr.poolT (by decide)).2⟩

/-- Witness for C2: the tie-break instance C-vs-B and the drained order of
one concrete insertion order. -/
theorem priority_ordering_fifo_tiebreak_witness :
    (TaskMgr.taskCmp TaskMgr.taskC TaskMgr.taskB = Ordering.gt ↔
      (TaskMgr.taskB.priority.disc < TaskMgr.taskC.priority.disc ∨
        (TaskMgr.taskC.priority = TaskMgr.taskB.priority ∧
          TaskMgr.taskC.created_at < TaskMgr.taskB.created_at))) ∧
    TaskMgr.drain 3 [TaskMgr.taskA, TaskMgr.taskB, TaskMgr.taskC] =
      [TaskMgr.taskC, TaskMgr.taskB, TaskMgr.taskA] :=
  ⟨priority_ordering_fifo_tiebreak.1 TaskMgr.taskC TaskMgr.taskB,
   priority_ordering_fifo_tiebreak.2 _ (by decide)⟩

/-- Witness for the amended C7: releasing the 4 GB requirement credits the
free-memory counter by exactly 4. -/
theorem release_unconditional_accounting_witness :
    (TaskMgr.release_resources TaskMgr.reqMem4 TaskMgr.poolFree10).available_memory_gb =
      TaskMgr.poolFree10.available_memory_gb + TaskMgr.reqMem4.memory_gb :=
  (release_unconditional_accounting TaskMgr.reqMem4 TaskMgr.poolFree10).1
